import Mathlib

/-!
Verification of the session-and-streaming core of the Wolf cloud-gaming host.

The development shallowly embeds the C++ data structures and operations of
`src/moonlight-server/state/config.hpp` and of the events/session header
(`wolf::core::events`).  External collaborators (the OpenSSL X.509 wrappers of
`src/crypto/crypto/crypto.hpp`) are modelled as an abstract structure of
functions, `X509Model`, over which the store operations are parametric; the
repository treats them as an opaque library, so any instantiation is admissible.
Immer persistent collections (`immer::vector`, `immer::array`, `immer::map`)
become Lean lists; `immer::atom` snapshots become the current value of the
cell, since every operation under verification loads one consistent snapshot.
-/

namespace Wolf

/-- Opaque handle standing for an OpenSSL `X509 *` certificate object. -/
abbrev Cert := Nat

/-- Interface of the external X.509 wrappers from `src/crypto/crypto/crypto.hpp`:
`x509::cert_from_string` parses a PEM string into a certificate handle, and
`x509::verification_error` returns `none` when verification of the first
certificate against the second succeeds, or `some msg` on failure. -/
structure X509Model where
  certFromString : String → Cert
  verificationError : Cert → Cert → Option String

/-- `wolf::config::PairedClient`: one paired Moonlight client.
Fields follow the spec data model (the defining header `state/data-structures.hpp`
is not part of the sources): an opaque id, the client certificate as a PEM
string, the state folder and the run uid/gid. -/
structure PairedClient where
  client_id : Nat
  client_cert : String
  app_state_folder : String
  run_uid : Int
  run_gid : Int
deriving DecidableEq, Repr

/-- `moonlight::App`: the base app description referenced by `events::App`
(`app.base.id` is what `get_app_by_id` scans). -/
structure AppBase where
  id : String
  title : String
deriving DecidableEq, Repr

/-- The runner attached to an app, serialised as a tagged union over
`AppCMD` / `AppDocker` (`rfl::TaggedUnion` in the source). -/
inductive RunnerKind where
  | appCMD (cmdLine : String)
  | appDocker (image : String)
deriving DecidableEq, Repr

/-- `wolf::core::events::App` from the events header: base description,
GStreamer pipeline descriptions, render node, compositor flag and runner. -/
structure App where
  base : AppBase
  h264_gst_pipeline : String
  hevc_gst_pipeline : String
  av1_gst_pipeline : String
  render_node : String
  opus_gst_pipeline : String
  start_virtual_compositor : Bool
  runner : RunnerKind
deriving DecidableEq, Repr

/-- `state::Config`: the configuration store.  `paired_clients` and `apps` are
one loaded snapshot of the corresponding `immer::atom` cells, in insertion
order. -/
structure Config where
  hostname : String
  uuid : String
  host_cert : String
  host_key : String
  support_hevc : Bool
  support_av1 : Bool
  paired_clients : List PairedClient
  apps : List App
deriving DecidableEq, Repr

/-- The predicate tested by the `std::find_if` lambda inside
`state::get_client_via_ssl`: parse the stored PEM certificate and check that
X.509 verification of it against the given certificate produces no error. -/
def clientMatches (M : X509Model) (client_cert : Cert) (pc : PairedClient) : Bool :=
  match M.verificationError (M.certFromString pc.client_cert) client_cert with
  | some _ => false
  | none => true

/-- `state::get_client_via_ssl` (certificate overload): first stored client in
the `paired_clients` snapshot whose certificate verifies against
`client_cert`, else `none`. -/
def get_client_via_ssl (M : X509Model) (cfg : Config) (client_cert : Cert) :
    Option PairedClient :=
  cfg.paired_clients.find? (clientMatches M client_cert)

/-- `state::get_client_via_ssl` (string overload): parses the PEM string and
delegates to the certificate overload, exactly as the source does. -/
def get_client_via_ssl_pem (M : X509Model) (cfg : Config) (client_cert : String) :
    Option PairedClient :=
  get_client_via_ssl M cfg (M.certFromString client_cert)

/-- The error `state::get_app_by_id` signals by throwing
`std::runtime_error` when no app carries the requested id; the spec names
this kind `NotFound`. -/
inductive AppStoreError where
  | notFound (app_id : String)
deriving DecidableEq, Repr

/-- `state::get_app_by_id`: linear scan of the `apps` snapshot for the first
app whose `base.id` equals `app_id`; throwing becomes `Except.error`. -/
def get_app_by_id (cfg : Config) (app_id : String) : Except AppStoreError App :=
  match cfg.apps.find? (fun app => app.base.id == app_id) with
  | some app => Except.ok app
  | none => Except.error (AppStoreError.notFound app_id)

/-- Modelled from the spec: the body of `state::pair` is not among the
sources, only its declaration in `config.hpp`.  Spec §4.1: "atomically insert
into `paired_clients` and persist.  Duplicate certs are rejected (by X.509
verification equality, not string equality)." -/
def pair (M : X509Model) (cfg : Config) (client : PairedClient) : Config :=
  if cfg.paired_clients.any (clientMatches M (M.certFromString client.client_cert)) then
    cfg
  else
    { cfg with paired_clients := cfg.paired_clients ++ [client] }

/-- Modelled from the spec: the body of `state::unpair` is not among the
sources, only its declaration in `config.hpp`.  Spec §4.1: "atomically remove
by certificate match", where client identity is X.509 verification equality
(design note §9), i.e. every stored client whose certificate verifies against
the given client is removed. -/
def unpair (M : X509Model) (cfg : Config) (client : PairedClient) : Config :=
  let keep := fun pc => ! clientMatches M (M.certFromString client.client_cert) pc
  { cfg with paired_clients := cfg.paired_clients.filter keep }

/-- A concrete `X509Model` used to instantiate witnesses: certificates are the
length of their PEM string, and verification succeeds exactly on equal
handles. -/
def eqX509Model : X509Model where
  certFromString := String.length
  verificationError := fun stored given => if stored = given then none else some "mismatch"

/-- A sample paired client used by witnesses. -/
def sampleClient : PairedClient :=
  { client_id := 1, client_cert := "CERT-A", app_state_folder := "/etc/wolf/a",
    run_uid := 1000, run_gid := 1000 }

/-- A second sample paired client whose certificate differs. -/
def sampleClientB : PairedClient :=
  { client_id := 2, client_cert := "CERT-XYZ", app_state_folder := "/etc/wolf/b",
    run_uid := 1001, run_gid := 1001 }

/-- A sample app used by witnesses. -/
def sampleApp : App :=
  { base := { id := "1", title := "Firefox" },
    h264_gst_pipeline := "h264", hevc_gst_pipeline := "hevc", av1_gst_pipeline := "av1",
    render_node := "/dev/dri/renderD128", opus_gst_pipeline := "opus",
    start_virtual_compositor := true, runner := RunnerKind.appCMD "firefox" }

/-- A sample configuration used by witnesses. -/
def sampleConfig : Config :=
  { hostname := "wolf", uuid := "uuid-0", host_cert := "HOSTCERT", host_key := "HOSTKEY",
    support_hevc := true, support_av1 := false,
    paired_clients := [sampleClient], apps := [sampleApp] }

/-- `moonlight::DisplayMode` (width, height, refresh rate). -/
structure DisplayMode where
  width : Nat
  height : Nat
  refreshRate : Nat
deriving DecidableEq, Repr

/-- `wolf::core::events::MouseTypes`:
`std::variant<input::Mouse, virtual_display::WaylandMouse>`; the payloads are
opaque device handles. -/
inductive MouseTypes where
  | mouse (dev : Nat)
  | waylandMouse (dev : Nat)
deriving DecidableEq, Repr

/-- `wolf::core::events::KeyboardTypes`:
`std::variant<input::Keyboard, virtual_display::WaylandKeyboard>`. -/
inductive KeyboardTypes where
  | keyboard (dev : Nat)
  | waylandKeyboard (dev : Nat)
deriving DecidableEq, Repr

/-- `wolf::core::events::JoypadTypes`:
`std::variant<input::XboxOneJoypad, input::SwitchJoypad, input::PS5Joypad>`. -/
inductive JoypadTypes where
  | xboxOne (dev : Nat)
  | switch (dev : Nat)
  | ps5 (dev : Nat)
deriving DecidableEq, Repr

/-- `input::PenTablet`, an opaque virtual device handle. -/
structure PenTablet where
  dev : Nat
deriving DecidableEq, Repr

/-- `input::TouchScreen`, an opaque virtual device handle. -/
structure TouchScreen where
  dev : Nat
deriving DecidableEq, Repr

/-- `wolf::core::events::JoypadList`:
`immer::map<int, std::shared_ptr<JoypadTypes>>` as an association list. -/
abbrev JoypadList := List (Nat × JoypadTypes)

/-- `wolf::core::events::StreamSession`.  The `immer::atom` holding the
optional Wayland display becomes an `Option`, the `shared_ptr<std::optional>`
input-device cells become `Option` fields, and the joypad atom becomes a
`JoypadList`.  The C++ default member initializers (fresh empty atoms and
default-constructed `std::optional`s) become the Lean default field values. -/
structure StreamSession where
  display_mode : DisplayMode
  audio_channel_count : Int
  event_bus : Nat
  app : App
  app_state_folder : String
  aes_key : String
  aes_iv : String
  session_id : Nat
  ip : String
  video_stream_port : Nat
  audio_stream_port : Nat
  wayland_display : Option Nat := none
  mouse : Option MouseTypes := none
  keyboard : Option KeyboardTypes := none
  joypads : JoypadList := []
  pen_tablet : Option PenTablet := none
  touch_screen : Option TouchScreen := none
deriving DecidableEq, Repr

/-- Construction of a `StreamSession` as `launch` performs it: only the
explicitly listed fields are supplied; every other field takes the default
member initializer of the C++ struct. -/
def newStreamSession (display_mode : DisplayMode) (audio_channel_count : Int)
    (event_bus : Nat) (app : App) (app_state_folder aes_key aes_iv : String)
    (session_id : Nat) (ip : String) (video_stream_port audio_stream_port : Nat) :
    StreamSession :=
  { display_mode := display_mode, audio_channel_count := audio_channel_count,
    event_bus := event_bus, app := app, app_state_folder := app_state_folder,
    aes_key := aes_key, aes_iv := aes_iv, session_id := session_id, ip := ip,
    video_stream_port := video_stream_port, audio_stream_port := audio_stream_port }

/-- Modelled from the spec: the code installing values into the write-once
input-device cells is not among the sources (only the cell declarations in the
`StreamSession` struct are).  Spec §9: "implementable as atomic `Option` with
compare-and-set on first write; subsequent writes are rejected or ignored";
§5: "first writer wins". -/
def writeOnce {α : Type} (cell : Option α) (v : α) : Option α :=
  match cell with
  | none => some v
  | some w => some w

/-- A write to the mouse cell of a session, through `writeOnce`. -/
def setMouse (s : StreamSession) (v : MouseTypes) : StreamSession :=
  { s with mouse := writeOnce s.mouse v }

/-- A write to the keyboard cell of a session, through `writeOnce`. -/
def setKeyboard (s : StreamSession) (v : KeyboardTypes) : StreamSession :=
  { s with keyboard := writeOnce s.keyboard v }

/-- A write to the pen-tablet cell of a session, through `writeOnce`. -/
def setPenTablet (s : StreamSession) (v : PenTablet) : StreamSession :=
  { s with pen_tablet := writeOnce s.pen_tablet v }

/-- A write to the touch-screen cell of a session, through `writeOnce`. -/
def setTouchScreen (s : StreamSession) (v : TouchScreen) : StreamSession :=
  { s with touch_screen := writeOnce s.touch_screen v }

/-- The per-session events of the events header, keyed by `session_id`:
`PauseStreamEvent`, `ResumeStreamEvent`, `IDRRequestEvent`,
`StopStreamEvent`. -/
inductive SessionEvent where
  | pauseStream (session_id : Nat)
  | resumeStream (session_id : Nat)
  | idrRequest (session_id : Nat)
  | stopStream (session_id : Nat)
deriving DecidableEq, Repr

/-- An operation arriving at the Session Registry: either a `launch` call
(which allocates a session id) or a published per-session event. -/
inductive RegistryOp where
  | launch
  | event (e : SessionEvent)
deriving DecidableEq, Repr

/-- Modelled from the spec: the Session Registry implementation is not among
the sources (only the event structs it dispatches are).  Spec §4.4: `launch`
allocates a monotonically increasing `session_id`; a `StopStreamEvent`
removes the session entry; the registry maps `session_id` to its session.
`allocated` is the history of every id ever handed out. -/
structure RegistryState where
  nextId : Nat
  live : List Nat
  allocated : List Nat
deriving DecidableEq, Repr

/-- The initial Session Registry: no sessions, no ids allocated. -/
def initRegistry : RegistryState :=
  { nextId := 0, live := [], allocated := [] }

/-- Modelled from the spec: one step of the Session Registry.  A `launch`
allocates the next id (spec §4.4 step 3).  A per-session event is delivered
only while the registry still holds the entry for its `session_id`; a
`StopStreamEvent` drops the entry before propagating the stop (spec §5:
"the registry drops its entry before propagating Stop").  Returns the new
state and the list of events delivered to subscribers by this step. -/
def stepRegistry (st : RegistryState) : RegistryOp → RegistryState × List SessionEvent
  | RegistryOp.launch =>
      ({ nextId := st.nextId + 1, live := st.live ++ [st.nextId],
         allocated := st.allocated ++ [st.nextId] }, [])
  | RegistryOp.event (SessionEvent.pauseStream sid) =>
      (st, if sid ∈ st.live then [SessionEvent.pauseStream sid] else [])
  | RegistryOp.event (SessionEvent.resumeStream sid) =>
      (st, if sid ∈ st.live then [SessionEvent.resumeStream sid] else [])
  | RegistryOp.event (SessionEvent.idrRequest sid) =>
      (st, if sid ∈ st.live then [SessionEvent.idrRequest sid] else [])
  | RegistryOp.event (SessionEvent.stopStream sid) =>
      ({ st with live := st.live.filter (fun x => x ≠ sid) },
       if sid ∈ st.live then [SessionEvent.stopStream sid] else [])

/-- Runs a sequence of registry operations, collecting every delivered event
in order. -/
def runRegistry (st : RegistryState) : List RegistryOp → RegistryState × List SessionEvent
  | [] => (st, [])
  | op :: ops =>
      let s1 := stepRegistry st op
      let s2 := runRegistry s1.1 ops
      (s2.1, s1.2 ++ s2.2)

/-- Whether an event is a Pause, Resume or IDR request for session `sid`. -/
def isPauseResumeIdr (sid : Nat) : SessionEvent → Bool
  | SessionEvent.pauseStream s => s == sid
  | SessionEvent.resumeStream s => s == sid
  | SessionEvent.idrRequest s => s == sid
  | SessionEvent.stopStream _ => false

/-- The persisted state file (spec §6): an object with fields `hostname`,
`uuid`, `support_hevc`, `support_av1`, `paired_clients`, `apps`.  The host
certificate and key live in their own files (`x509::cert_from_file`,
`x509::pkey_from_file`, `x509::write_to_disk` in `crypto.hpp`). -/
structure ConfigFile where
  hostname : String
  uuid : String
  support_hevc : Bool
  support_av1 : Bool
  paired_clients : List PairedClient
  apps : List App
deriving DecidableEq, Repr

/-- Serialisation of a `Config` into the persisted state file. -/
def fileOfConfig (c : Config) : ConfigFile :=
  { hostname := c.hostname, uuid := c.uuid,
    support_hevc := c.support_hevc, support_av1 := c.support_av1,
    paired_clients := c.paired_clients, apps := c.apps }

/-- Parsing of a persisted state file back into a `Config`, with the host
certificate and key supplied from their own files. -/
def configOfFile (f : ConfigFile) (cert key : String) : Config :=
  { hostname := f.hostname, uuid := f.uuid, host_cert := cert, host_key := key,
    support_hevc := f.support_hevc, support_av1 := f.support_av1,
    paired_clients := f.paired_clients, apps := f.apps }

/-- The default `Config` generated when no persisted state exists (spec §4.1:
fresh uuid, fresh key and self-signed cert, HEVC enabled, AV1 off, no apps,
empty paired set). -/
def defaultConfig (freshUuid freshCert freshKey : String) : Config :=
  { hostname := "Wolf", uuid := freshUuid, host_cert := freshCert, host_key := freshKey,
    support_hevc := true, support_av1 := false, paired_clients := [], apps := [] }

/-- The on-disk state `load_or_default` reads and writes: the config file at
the given source path, and the certificate and private-key files. -/
structure FileStore where
  configFile : Option ConfigFile
  certFile : Option String
  keyFile : Option String
deriving DecidableEq, Repr

/-- Modelled from the spec: the body of `state::load_or_default` is not among
the sources, only its declaration in `config.hpp`.  Spec §4.1: "parse
persisted state; if absent, generate a fresh `uuid`, a 2048-bit RSA key, a
self-signed X.509 cert, defaults (HEVC enabled, AV1 off, no apps, empty
paired set), and persist."  Randomness (the fresh uuid, cert and key) is
passed in as arguments; the certificate and key files are generated when
missing (`x509::cert_exists` / `x509::write_to_disk`).  Returns the loaded
`Config` and the updated file store. -/
def load_or_default (fs : FileStore) (freshUuid freshCert freshKey : String) :
    Config × FileStore :=
  match fs.configFile with
  | some f =>
      match fs.certFile, fs.keyFile with
      | some cert, some key => (configOfFile f cert key, fs)
      | _, _ =>
          (configOfFile f freshCert freshKey,
           { fs with certFile := some freshCert, keyFile := some freshKey })
  | none =>
      let c := defaultConfig freshUuid freshCert freshKey
      (c, { configFile := some (fileOfConfig c),
            certFile := some freshCert, keyFile := some freshKey })

/-- Atomic rewrite of the persisted state file with the serialisation of the
given `Config` (spec §3: write-temp + rename after every successful
mutation). -/
def persistConfig (cfg : Config) (fs : FileStore) : FileStore :=
  { fs with configFile := some (fileOfConfig cfg) }

/-- `wolf::core::events::PlugDeviceEvent`: a device-hotplug descriptor
(udev environment maps plus hardware-database entries). -/
structure PlugDeviceEvent where
  session_id : Nat
  udev_events : List (List (String × String))
  udev_hw_db_entries : List (String × List String)
deriving DecidableEq, Repr

/-- A plug event is critical when its hardware-database entries are
non-empty (spec §8: "critical events (defined as those with non-empty
`hw_db_entries`)"). -/
def isCritical (e : PlugDeviceEvent) : Bool :=
  ! e.udev_hw_db_entries.isEmpty

/-- Modelled from the spec: the bounded device-plug queue.  The sources only
contain the alias `devices_atom_queue = TSQueue<immer::box<PlugDeviceEvent>>`;
`helpers/tsqueue.hpp` itself is absent, and the spec (§4.6, §9) fixes the
bounded-FIFO contract verified here.  `items` is ordered oldest first. -/
structure TSQueue where
  capacity : Nat
  items : List PlugDeviceEvent
deriving DecidableEq, Repr

/-- Removes the oldest non-critical event of the list, or returns `none`
when every queued event is critical. -/
def dropOldestNonCritical : List PlugDeviceEvent → Option (List PlugDeviceEvent)
  | [] => none
  | e :: rest =>
      if isCritical e then
        (dropOldestNonCritical rest).map (fun r => e :: r)
      else
        some rest

/-- Modelled from the spec: `try_push` of the bounded device-plug queue.
Spec §4.6: "non-blocking `try_push` with overflow dropping the oldest
non-critical event and logging"; critical events are always preserved, so
when the queue is full of critical events the incoming event is the one
dropped.  Total function: it always returns immediately (never blocks). -/
def try_push (q : TSQueue) (e : PlugDeviceEvent) : TSQueue :=
  if q.items.length < q.capacity then
    { q with items := q.items ++ [e] }
  else
    match dropOldestNonCritical q.items with
    | some rest => { q with items := rest ++ [e] }
    | none => q

/-- A sample critical plug event (non-empty hardware-database entries). -/
def sampleCriticalEvent : PlugDeviceEvent :=
  { session_id := 1, udev_events := [[("ACTION", "add")]],
    udev_hw_db_entries := [("evdev-input", ["ID_INPUT=1"])] }

/-- A sample non-critical plug event (empty hardware-database entries). -/
def sampleNonCriticalEvent : PlugDeviceEvent :=
  { session_id := 1, udev_events := [[("ACTION", "add")]], udev_hw_db_entries := [] }

/-- A second sample non-critical plug event. -/
def sampleIncomingEvent : PlugDeviceEvent :=
  { session_id := 2, udev_events := [], udev_hw_db_entries := [] }

/-- A sample freshly constructed stream session used by witnesses. -/
def sampleSession : StreamSession :=
  newStreamSession { width := 1920, height := 1080, refreshRate := 60 } 2 7 sampleApp
    "/etc/wolf/a" "0123456789abcdef" "fedcba9876543210" 0 "192.168.1.2" 48100 48200

/-- A sample full device-plug queue used by witnesses. -/
def sampleQueue : TSQueue :=
  { capacity := 2, items := [sampleCriticalEvent, sampleNonCriticalEvent] }

/-- A sample on-disk store with no persisted state, used by witnesses. -/
def sampleStore : FileStore :=
  { configFile := none, certFile := none, keyFile := none }

/-- The registry invariant: allocated and live ids are below the allocation
counter, and the allocation history is strictly increasing. -/
def RegistryInv (st : RegistryState) : Prop :=
  (∀ x ∈ st.allocated, x < st.nextId) ∧ (∀ x ∈ st.live, x < st.nextId) ∧
    st.allocated.Pairwise (· < ·)

/-- A session id is dead for a registry state when its entry has been dropped
and the id can never be allocated again. -/
def DeadSession (st : RegistryState) (sid : Nat) : Prop :=
  sid ∉ st.live ∧ sid < st.nextId

theorem find?_eq_some_first {α : Type} (p : α → Bool) (l : List α) (a : α) :
    l.find? p = some a ↔
      ∃ l1 l2, l = l1 ++ a :: l2 ∧ p a = true ∧ ∀ x ∈ l1, p x = false := by
  induction l with
  | nil =>
    simp
  | cons b t ih =>
    by_cases hb : p b
    · rw [List.find?_cons_of_pos _ hb]
      constructor
      · intro h
        injection h with h
        subst h
        exact ⟨[], t, rfl, hb, by intro x hx; cases hx⟩
      · rintro ⟨l1, l2, heq, hpa, hl1⟩
        cases l1 with
        | nil =>
          simp only [List.nil_append] at heq
          injection heq with h1 h2
          rw [h1]
        | cons c l1t =>
          rw [List.cons_append] at heq
          injection heq with h1 h2
          have hc := hl1 c (List.mem_cons_self c l1t)
          rw [← h1, hb] at hc
          cases hc
    · rw [List.find?_cons_of_neg _ hb, ih]
      constructor
      · rintro ⟨l1, l2, heq, hpa, hl1⟩
        refine ⟨b :: l1, l2, by rw [heq, List.cons_append], hpa, ?_⟩
        intro x hx
        rcases List.mem_cons.mp hx with h | h
        · subst h
          simpa using hb
        · exact hl1 x h
      · rintro ⟨l1, l2, heq, hpa, hl1⟩
        cases l1 with
        | nil =>
          simp only [List.nil_append] at heq
          injection heq with h1 h2
          rw [h1] at hb
          exact absurd hpa hb
        | cons c l1t =>
          rw [List.cons_append] at heq
          injection heq with h1 h2
          exact ⟨l1t, l2, h2, hpa, fun x hx => hl1 x (List.mem_cons_of_mem _ hx)⟩

/-- C10: for every `Config` and every PEM certificate string, the string
overload of `get_client_via_ssl` returns exactly the result of the
certificate overload applied to `cert_from_string` of that string; in the
source the string overload is defined by this exact delegation. -/
theorem get_client_via_ssl_overloads_agree (M : X509Model) (cfg : Config) (s : String) :
    get_client_via_ssl_pem M cfg s = get_client_via_ssl M cfg (M.certFromString s) := rfl

/-- C9: every newly constructed `StreamSession` has all its write-once cells
empty: no Wayland display, unset mouse, keyboard, pen-tablet and touch-screen
optionals, and an empty joypad map. -/
theorem newStreamSession_cells_empty (dm : DisplayMode) (acc : Int) (bus : Nat)
    (app : App) (folder key iv : String) (sid : Nat) (ip : String) (vp ap : Nat) :
    (newStreamSession dm acc bus app folder key iv sid ip vp ap).wayland_display = none ∧
    (newStreamSession dm acc bus app folder key iv sid ip vp ap).mouse = none ∧
    (newStreamSession dm acc bus app folder key iv sid ip vp ap).keyboard = none ∧
    (newStreamSession dm acc bus app folder key iv sid ip vp ap).pen_tablet = none ∧
    (newStreamSession dm acc bus app folder key iv sid ip vp ap).touch_screen = none ∧
    (newStreamSession dm acc bus app folder key iv sid ip vp ap).joypads = [] :=
  ⟨rfl, rfl, rfl, rfl, rfl, rfl⟩

/-- C2: `get_client_via_ssl` returns the first `PairedClient` of the
`paired_clients` snapshot, in insertion order, whose stored certificate
verifies against the given certificate with no verification error
(`clientMatches`), and returns `none` exactly when no stored client
verifies. -/
theorem get_client_via_ssl_first_match (M : X509Model) (cfg : Config) (cert : Cert) :
    (∀ pc, get_client_via_ssl M cfg cert = some pc ↔
        ∃ l1 l2, cfg.paired_clients = l1 ++ pc :: l2 ∧ clientMatches M cert pc = true ∧
          ∀ q ∈ l1, clientMatches M cert q = false)
  ∧ (get_client_via_ssl M cfg cert = none ↔
        ∀ pc ∈ cfg.paired_clients, clientMatches M cert pc = false) := by
  constructor
  · intro pc
    exact find?_eq_some_first _ _ _
  · unfold get_client_via_ssl
    rw [List.find?_eq_none]
    constructor
    · intro h pc hpc
      simpa using h pc hpc
    · intro h pc hpc
      simp [h pc hpc]

theorem get_app_by_id_eq_ok_iff (cfg : Config) (app_id : String) (app : App) :
    get_app_by_id cfg app_id = Except.ok app ↔
      cfg.apps.find? (fun a => a.base.id == app_id) = some app := by
  unfold get_app_by_id
  cases hf : cfg.apps.find? (fun a => a.base.id == app_id) <;> simp

theorem get_app_by_id_eq_error_iff (cfg : Config) (app_id : String) :
    get_app_by_id cfg app_id = Except.error (AppStoreError.notFound app_id) ↔
      cfg.apps.find? (fun a => a.base.id == app_id) = none := by
  unfold get_app_by_id
  cases hf : cfg.apps.find? (fun a => a.base.id == app_id) <;> simp

/-- C3: `get_app_by_id` returns the first app of the `apps` snapshot whose id
equals the requested id, and fails with `NotFound` exactly when no app in the
snapshot carries that id. -/
theorem get_app_by_id_first_or_not_found (cfg : Config) (app_id : String) :
    (∀ app, get_app_by_id cfg app_id = Except.ok app ↔
        ∃ l1 l2, cfg.apps = l1 ++ app :: l2 ∧ app.base.id = app_id ∧
          ∀ b ∈ l1, b.base.id ≠ app_id)
  ∧ (get_app_by_id cfg app_id = Except.error (AppStoreError.notFound app_id) ↔
        ∀ app ∈ cfg.apps, app.base.id ≠ app_id) := by
  constructor
  · intro app
    rw [get_app_by_id_eq_ok_iff, find?_eq_some_first]
    simp only [beq_iff_eq, beq_eq_false_iff_ne, ne_eq]
  · rw [get_app_by_id_eq_error_iff, List.find?_eq_none]
    simp only [beq_iff_eq, ne_eq]

/-- C1: pairing a client makes `get_client_via_ssl` find its paired record
(the stored client whose certificate verifies against it; when no stored
client already matched, that record is the client itself), and unpairing the
client makes `get_client_via_ssl` return `none`.  The hypothesis states that
the client certificate verifies against itself, the sanity property of X.509
verification the store relies on. -/
theorem pair_then_found_unpair_then_none (M : X509Model) (cfg : Config) (C : PairedClient)
    (hself : clientMatches M (M.certFromString C.client_cert) C = true) :
    (∃ r, get_client_via_ssl M (pair M cfg C) (M.certFromString C.client_cert) = some r ∧
        clientMatches M (M.certFromString C.client_cert) r = true)
  ∧ ((∀ pc ∈ cfg.paired_clients,
        clientMatches M (M.certFromString C.client_cert) pc = false) →
      get_client_via_ssl M (pair M cfg C) (M.certFromString C.client_cert) = some C)
  ∧ get_client_via_ssl M (unpair M cfg C) (M.certFromString C.client_cert) = none := by
  refine ⟨?_, ?_, ?_⟩
  · by_cases hany : cfg.paired_clients.any (clientMatches M (M.certFromString C.client_cert))
    · have hpair : pair M cfg C = cfg := by simp [pair, hany]
      rw [hpair]
      obtain ⟨x, hx, hxm⟩ := List.any_eq_true.mp hany
      unfold get_client_via_ssl
      cases hf : cfg.paired_clients.find? (clientMatches M (M.certFromString C.client_cert)) with
      | none =>
        rw [List.find?_eq_none] at hf
        exact absurd hxm (by simpa using hf x hx)
      | some r =>
        exact ⟨r, rfl, List.find?_some hf⟩
    · have hpair : pair M cfg C =
          { cfg with paired_clients := cfg.paired_clients ++ [C] } := by
        simp [pair, hany]
      rw [hpair]
      refine ⟨C, ?_, hself⟩
      unfold get_client_via_ssl
      rw [find?_eq_some_first]
      refine ⟨cfg.paired_clients, [], rfl, hself, ?_⟩
      intro x hx
      by_contra hpx
      exact hany (List.any_eq_true.mpr ⟨x, hx, by simpa using hpx⟩)
  · intro hnone
    have hany : ¬ cfg.paired_clients.any (clientMatches M (M.certFromString C.client_cert)) = true := by
      intro h
      obtain ⟨x, hx, hxm⟩ := List.any_eq_true.mp h
      rw [hnone x hx] at hxm
      cases hxm
    have hpair : pair M cfg C =
        { cfg with paired_clients := cfg.paired_clients ++ [C] } := by
      simp [pair, hany]
    rw [hpair]
    unfold get_client_via_ssl
    rw [find?_eq_some_first]
    exact ⟨cfg.paired_clients, [], rfl, hself, hnone⟩
  · unfold unpair get_client_via_ssl
    rw [List.find?_eq_none]
    intro x hx
    have hx2 := (List.mem_filter.mp hx).2
    simp only [Bool.not_eq_true'] at hx2
    simp [hx2]

/-- Witness for C1 at a concrete client not yet matching any stored client. -/
theorem pair_then_found_unpair_then_none_witness :
    clientMatches eqX509Model (eqX509Model.certFromString sampleClientB.client_cert) sampleClientB = true
  ∧ ((∃ r, get_client_via_ssl eqX509Model (pair eqX509Model sampleConfig sampleClientB)
          (eqX509Model.certFromString sampleClientB.client_cert) = some r ∧
        clientMatches eqX509Model (eqX509Model.certFromString sampleClientB.client_cert) r = true)
    ∧ ((∀ pc ∈ sampleConfig.paired_clients,
          clientMatches eqX509Model (eqX509Model.certFromString sampleClientB.client_cert) pc = false) →
        get_client_via_ssl eqX509Model (pair eqX509Model sampleConfig sampleClientB)
          (eqX509Model.certFromString sampleClientB.client_cert) = some sampleClientB)
    ∧ get_client_via_ssl eqX509Model (unpair eqX509Model sampleConfig sampleClientB)
        (eqX509Model.certFromString sampleClientB.client_cert) = none) :=
  ⟨by decide,
   pair_then_found_unpair_then_none eqX509Model sampleConfig sampleClientB (by decide)⟩

theorem foldl_writeOnce_some {α : Type} (v : α) (vs : List α) :
    vs.foldl writeOnce (some v) = some v := by
  induction vs with
  | nil => rfl
  | cons w t ih => exact ih

theorem foldl_setMouse_mouse (vs : List MouseTypes) (s0 : StreamSession) :
    (vs.foldl setMouse s0).mouse = vs.foldl writeOnce s0.mouse := by
  induction vs generalizing s0 with
  | nil => rfl
  | cons w t ih => exact ih (setMouse s0 w)

theorem foldl_setKeyboard_keyboard (vs : List KeyboardTypes) (s0 : StreamSession) :
    (vs.foldl setKeyboard s0).keyboard = vs.foldl writeOnce s0.keyboard := by
  induction vs generalizing s0 with
  | nil => rfl
  | cons w t ih => exact ih (setKeyboard s0 w)

theorem foldl_setPenTablet_pen (vs : List PenTablet) (s0 : StreamSession) :
    (vs.foldl setPenTablet s0).pen_tablet = vs.foldl writeOnce s0.pen_tablet := by
  induction vs generalizing s0 with
  | nil => rfl
  | cons w t ih => exact ih (setPenTablet s0 w)

theorem foldl_setTouchScreen_touch (vs : List TouchScreen) (s0 : StreamSession) :
    (vs.foldl setTouchScreen s0).touch_screen = vs.foldl writeOnce s0.touch_screen := by
  induction vs generalizing s0 with
  | nil => rfl
  | cons w t ih => exact ih (setTouchScreen s0 w)

/-- C6: each input-device cell of a `StreamSession` (mouse, keyboard, pen
tablet, touch screen) is write-once-then-stable: from an empty cell the first
writer wins and every observer sees the first-installed value after any
further writes, and a write to an already-set cell leaves it unchanged. -/
theorem input_cells_write_once :
    (∀ (s : StreamSession) (v : MouseTypes) (vs : List MouseTypes),
        s.mouse = none → (vs.foldl setMouse (setMouse s v)).mouse = some v)
  ∧ (∀ (s : StreamSession) (w v : MouseTypes),
        s.mouse = some w → (setMouse s v).mouse = s.mouse)
  ∧ (∀ (s : StreamSession) (v : KeyboardTypes) (vs : List KeyboardTypes),
        s.keyboard = none → (vs.foldl setKeyboard (setKeyboard s v)).keyboard = some v)
  ∧ (∀ (s : StreamSession) (w v : KeyboardTypes),
        s.keyboard = some w → (setKeyboard s v).keyboard = s.keyboard)
  ∧ (∀ (s : StreamSession) (v : PenTablet) (vs : List PenTablet),
        s.pen_tablet = none → (vs.foldl setPenTablet (setPenTablet s v)).pen_tablet = some v)
  ∧ (∀ (s : StreamSession) (w v : PenTablet),
        s.pen_tablet = some w → (setPenTablet s v).pen_tablet = s.pen_tablet)
  ∧ (∀ (s : StreamSession) (v : TouchScreen) (vs : List TouchScreen),
        s.touch_screen = none → (vs.foldl setTouchScreen (setTouchScreen s v)).touch_screen = some v)
  ∧ (∀ (s : StreamSession) (w v : TouchScreen),
        s.touch_screen = some w → (setTouchScreen s v).touch_screen = s.touch_screen) := by
  refine ⟨?_, ?_, ?_, ?_, ?_, ?_, ?_, ?_⟩
  · intro s v vs h
    rw [foldl_setMouse_mouse]
    have hv : (setMouse s v).mouse = some v := by simp [setMouse, writeOnce, h]
    rw [hv]
    exact foldl_writeOnce_some v vs
  · intro s w v h
    simp [setMouse, writeOnce, h]
  · intro s v vs h
    rw [foldl_setKeyboard_keyboard]
    have hv : (setKeyboard s v).keyboard = some v := by simp [setKeyboard, writeOnce, h]
    rw [hv]
    exact foldl_writeOnce_some v vs
  · intro s w v h
    simp [setKeyboard, writeOnce, h]
  · intro s v vs h
    rw [foldl_setPenTablet_pen]
    have hv : (setPenTablet s v).pen_tablet = some v := by simp [setPenTablet, writeOnce, h]
    rw [hv]
    exact foldl_writeOnce_some v vs
  · intro s w v h
    simp [setPenTablet, writeOnce, h]
  · intro s v vs h
    rw [foldl_setTouchScreen_touch]
    have hv : (setTouchScreen s v).touch_screen = some v := by
      simp [setTouchScreen, writeOnce, h]
    rw [hv]
    exact foldl_writeOnce_some v vs
  · intro s w v h
    simp [setTouchScreen, writeOnce, h]

/-- Witness for C6 at a concrete fresh session and concrete writes. -/
theorem input_cells_write_once_witness :
    (([MouseTypes.waylandMouse 5].foldl setMouse
        (setMouse sampleSession (MouseTypes.mouse 3))).mouse = some (MouseTypes.mouse 3))
  ∧ ((setMouse (setMouse sampleSession (MouseTypes.mouse 3)) (MouseTypes.waylandMouse 5)).mouse =
      (setMouse sampleSession (MouseTypes.mouse 3)).mouse)
  ∧ (([KeyboardTypes.waylandKeyboard 6].foldl setKeyboard
        (setKeyboard sampleSession (KeyboardTypes.keyboard 4))).keyboard =
      some (KeyboardTypes.keyboard 4))
  ∧ ((setKeyboard (setKeyboard sampleSession (KeyboardTypes.keyboard 4))
        (KeyboardTypes.waylandKeyboard 6)).keyboard =
      (setKeyboard sampleSession (KeyboardTypes.keyboard 4)).keyboard)
  ∧ (([PenTablet.mk 8].foldl setPenTablet
        (setPenTablet sampleSession (PenTablet.mk 7))).pen_tablet = some (PenTablet.mk 7))
  ∧ ((setPenTablet (setPenTablet sampleSession (PenTablet.mk 7)) (PenTablet.mk 8)).pen_tablet =
      (setPenTablet sampleSession (PenTablet.mk 7)).pen_tablet)
  ∧ (([TouchScreen.mk 10].foldl setTouchScreen
        (setTouchScreen sampleSession (TouchScreen.mk 9))).touch_screen = some (TouchScreen.mk 9))
  ∧ ((setTouchScreen (setTouchScreen sampleSession (TouchScreen.mk 9))
        (TouchScreen.mk 10)).touch_screen =
      (setTouchScreen sampleSession (TouchScreen.mk 9)).touch_screen) :=
  ⟨input_cells_write_once.1 sampleSession (MouseTypes.mouse 3) [MouseTypes.waylandMouse 5] rfl,
   input_cells_write_once.2.1 (setMouse sampleSession (MouseTypes.mouse 3))
     (MouseTypes.mouse 3) (MouseTypes.waylandMouse 5) rfl,
   input_cells_write_once.2.2.1 sampleSession (KeyboardTypes.keyboard 4)
     [KeyboardTypes.waylandKeyboard 6] rfl,
   input_cells_write_once.2.2.2.1 (setKeyboard sampleSession (KeyboardTypes.keyboard 4))
     (KeyboardTypes.keyboard 4) (KeyboardTypes.waylandKeyboard 6) rfl,
   input_cells_write_once.2.2.2.2.1 sampleSession (PenTablet.mk 7) [PenTablet.mk 8] rfl,
   input_cells_write_once.2.2.2.2.2.1 (setPenTablet sampleSession (PenTablet.mk 7))
     (PenTablet.mk 7) (PenTablet.mk 8) rfl,
   input_cells_write_once.2.2.2.2.2.2.1 sampleSession (TouchScreen.mk 9) [TouchScreen.mk 10] rfl,
   input_cells_write_once.2.2.2.2.2.2.2 (setTouchScreen sampleSession (TouchScreen.mk 9))
     (TouchScreen.mk 9) (TouchScreen.mk 10) rfl⟩

theorem registryInv_init : RegistryInv initRegistry := by
  refine ⟨?_, ?_, ?_⟩ <;> simp [RegistryInv, initRegistry]

theorem registryInv_step (st : RegistryState) (op : RegistryOp) (h : RegistryInv st) :
    RegistryInv (stepRegistry st op).1 := by
  obtain ⟨ha, hl, hp⟩ := h
  cases op with
  | launch =>
    refine ⟨?_, ?_, ?_⟩
    · intro x hx
      simp only [stepRegistry, List.mem_append, List.mem_singleton] at hx
      rcases hx with hx | hx
      · exact Nat.lt_succ_of_lt (ha x hx)
      · subst hx
        exact Nat.lt_succ_self _
    · intro x hx
      simp only [stepRegistry, List.mem_append, List.mem_singleton] at hx
      rcases hx with hx | hx
      · exact Nat.lt_succ_of_lt (hl x hx)
      · subst hx
        exact Nat.lt_succ_self _
    · show (st.allocated ++ [st.nextId]).Pairwise (· < ·)
      rw [List.pairwise_append]
      refine ⟨hp, by simp, ?_⟩
      intro a hamem b hbmem
      rw [List.mem_singleton] at hbmem
      subst hbmem
      exact ha a hamem
  | event e =>
    cases e with
    | pauseStream sid => exact ⟨ha, hl, hp⟩
    | resumeStream sid => exact ⟨ha, hl, hp⟩
    | idrRequest sid => exact ⟨ha, hl, hp⟩
    | stopStream sid =>
      refine ⟨ha, ?_, hp⟩
      intro x hx
      exact hl x (List.mem_filter.mp hx).1

theorem registryInv_run (st : RegistryState) (ops : List RegistryOp) (h : RegistryInv st) :
    RegistryInv (runRegistry st ops).1 := by
  induction ops generalizing st with
  | nil => exact h
  | cons op ops ih => exact ih (stepRegistry st op).1 (registryInv_step st op h)

/-- C4: across every sequence of registry operations starting from the empty
registry, the history of allocated session ids is strictly increasing, hence
all allocated ids are pairwise distinct (ids are never reused). -/
theorem session_ids_never_reused (ops : List RegistryOp) :
    ((runRegistry initRegistry ops).1.allocated).Pairwise (· < ·) ∧
    ((runRegistry initRegistry ops).1.allocated).Nodup := by
  have h := registryInv_run initRegistry ops registryInv_init
  exact ⟨h.2.2, h.2.2.imp (fun hlt => Nat.ne_of_lt hlt)⟩

theorem deadSession_step (st : RegistryState) (op : RegistryOp) (sid : Nat)
    (h : DeadSession st sid) :
    DeadSession (stepRegistry st op).1 sid ∧
      ∀ d ∈ (stepRegistry st op).2, isPauseResumeIdr sid d = false := by
  obtain ⟨hnl, hlt⟩ := h
  cases op with
  | launch =>
    refine ⟨⟨?_, ?_⟩, ?_⟩
    · intro hx
      simp only [stepRegistry, List.mem_append, List.mem_singleton] at hx
      rcases hx with hx | hx
      · exact hnl hx
      · exact absurd hx (Nat.ne_of_lt hlt)
    · exact Nat.lt_succ_of_lt hlt
    · intro d hd
      simp [stepRegistry] at hd
  | event e =>
    cases e with
    | pauseStream s2 =>
      refine ⟨⟨hnl, hlt⟩, ?_⟩
      intro d hd
      by_cases hs : s2 ∈ st.live
      · simp only [stepRegistry, if_pos hs, List.mem_singleton] at hd
        subst hd
        simp only [isPauseResumeIdr, beq_eq_false_iff_ne, ne_eq]
        intro heq
        exact hnl (heq ▸ hs)
      · simp [stepRegistry, if_neg hs] at hd
    | resumeStream s2 =>
      refine ⟨⟨hnl, hlt⟩, ?_⟩
      intro d hd
      by_cases hs : s2 ∈ st.live
      · simp only [stepRegistry, if_pos hs, List.mem_singleton] at hd
        subst hd
        simp only [isPauseResumeIdr, beq_eq_false_iff_ne, ne_eq]
        intro heq
        exact hnl (heq ▸ hs)
      · simp [stepRegistry, if_neg hs] at hd
    | idrRequest s2 =>
      refine ⟨⟨hnl, hlt⟩, ?_⟩
      intro d hd
      by_cases hs : s2 ∈ st.live
      · simp only [stepRegistry, if_pos hs, List.mem_singleton] at hd
        subst hd
        simp only [isPauseResumeIdr, beq_eq_false_iff_ne, ne_eq]
        intro heq
        exact hnl (heq ▸ hs)
      · simp [stepRegistry, if_neg hs] at hd
    | stopStream s2 =>
      refine ⟨⟨?_, hlt⟩, ?_⟩
      · intro hx
        exact hnl (List.mem_filter.mp hx).1
      · intro d hd
        by_cases hs : s2 ∈ st.live
        · simp only [stepRegistry, if_pos hs, List.mem_singleton] at hd
          subst hd
          rfl
        · simp [stepRegistry, if_neg hs] at hd

theorem deadSession_run (st : RegistryState) (ops : List RegistryOp) (sid : Nat)
    (h : DeadSession st sid) :
    ∀ d ∈ (runRegistry st ops).2, isPauseResumeIdr sid d = false := by
  induction ops generalizing st with
  | nil =>
    intro d hd
    simp [runRegistry] at hd
  | cons op ops ih =>
    intro d hd
    rcases List.mem_append.mp hd with hd | hd
    · exact (deadSession_step st op sid h).2 d hd
    · exact ih (stepRegistry st op).1 (deadSession_step st op sid h).1 d hd

theorem stop_observed_dead (st : RegistryState) (op : RegistryOp) (sid : Nat)
    (hinv : ∀ x ∈ st.live, x < st.nextId)
    (hstop : SessionEvent.stopStream sid ∈ (stepRegistry st op).2) :
    DeadSession (stepRegistry st op).1 sid := by
  cases op with
  | launch => simp [stepRegistry] at hstop
  | event e =>
    cases e with
    | pauseStream s2 =>
      by_cases hs : s2 ∈ st.live
      · simp [stepRegistry, if_pos hs] at hstop
      · simp [stepRegistry, if_neg hs] at hstop
    | resumeStream s2 =>
      by_cases hs : s2 ∈ st.live
      · simp [stepRegistry, if_pos hs] at hstop
      · simp [stepRegistry, if_neg hs] at hstop
    | idrRequest s2 =>
      by_cases hs : s2 ∈ st.live
      · simp [stepRegistry, if_pos hs] at hstop
      · simp [stepRegistry, if_neg hs] at hstop
    | stopStream s2 =>
      by_cases hs : s2 ∈ st.live
      · simp only [stepRegistry, if_pos hs, List.mem_singleton,
          SessionEvent.stopStream.injEq] at hstop
        subst hstop
        constructor
        · intro hx
          have hx2 := (List.mem_filter.mp hx).2
          simp at hx2
        · exact hinv sid hs
      · simp [stepRegistry, if_neg hs] at hstop

/-- C5: once the Session Registry observes a `StopStreamEvent` for a session
id (i.e. the stop is delivered for a live session, which drops the entry), no
later `PauseStreamEvent`, `ResumeStreamEvent` or `IDRRequestEvent` for that
session id is ever delivered, whatever operations follow. -/
theorem stop_stream_terminal (ops1 : List RegistryOp) (op : RegistryOp)
    (ops2 : List RegistryOp) (sid : Nat)
    (hstop : SessionEvent.stopStream sid ∈
      (stepRegistry (runRegistry initRegistry ops1).1 op).2) :
    ((runRegistry (stepRegistry (runRegistry initRegistry ops1).1 op).1 ops2).2.all
      (fun d => ! isPauseResumeIdr sid d)) = true := by
  have hinv := registryInv_run initRegistry ops1 registryInv_init
  have hdead := stop_observed_dead (runRegistry initRegistry ops1).1 op sid hinv.2.1 hstop
  rw [List.all_eq_true]
  intro d hd
  have hfree := deadSession_run (stepRegistry (runRegistry initRegistry ops1).1 op).1
    ops2 sid hdead d hd
  simp [hfree]

/-- Witness for C5: launch one session, stop it, then attempt pause and IDR;
nothing further is delivered for that id. -/
theorem stop_stream_terminal_witness :
    (SessionEvent.stopStream 0 ∈
      (stepRegistry (runRegistry initRegistry [RegistryOp.launch]).1
        (RegistryOp.event (SessionEvent.stopStream 0))).2)
  ∧ (((runRegistry (stepRegistry (runRegistry initRegistry [RegistryOp.launch]).1
        (RegistryOp.event (SessionEvent.stopStream 0))).1
        [RegistryOp.event (SessionEvent.pauseStream 0),
         RegistryOp.event (SessionEvent.idrRequest 0)]).2.all
      (fun d => ! isPauseResumeIdr 0 d)) = true) :=
  ⟨by decide,
   stop_stream_terminal [RegistryOp.launch] (RegistryOp.event (SessionEvent.stopStream 0))
     [RegistryOp.event (SessionEvent.pauseStream 0),
      RegistryOp.event (SessionEvent.idrRequest 0)] 0 (by decide)⟩

/-- C7: loading a configuration, persisting it and loading again from the
same store yields a `Config` equal to the first one, whatever fresh random
material the second load would have drawn. -/
theorem load_persist_load_roundtrip (fs : FileStore) (u1 c1 k1 u2 c2 k2 : String) :
    (load_or_default
        (persistConfig (load_or_default fs u1 c1 k1).1 (load_or_default fs u1 c1 k1).2)
        u2 c2 k2).1 = (load_or_default fs u1 c1 k1).1 := by
  obtain ⟨cf, ce, ke⟩ := fs
  cases cf <;> cases ce <;> cases ke <;> rfl

theorem dropOldestNonCritical_eq_none (l : List PlugDeviceEvent)
    (h : ∀ x ∈ l, isCritical x = true) : dropOldestNonCritical l = none := by
  induction l with
  | nil => rfl
  | cons e rest ih =>
    have he := h e (List.mem_cons_self e rest)
    simp [dropOldestNonCritical, he,
      ih (fun x hx => h x (List.mem_cons_of_mem _ hx))]

theorem dropOldestNonCritical_eq_some (l : List PlugDeviceEvent) (x : PlugDeviceEvent)
    (hx : x ∈ l) (hxc : isCritical x = false) :
    ∃ l1 n l2, l = l1 ++ n :: l2 ∧ isCritical n = false ∧
      (∀ y ∈ l1, isCritical y = true) ∧ dropOldestNonCritical l = some (l1 ++ l2) := by
  induction l with
  | nil => cases hx
  | cons e rest ih =>
    by_cases he : isCritical e = true
    · have hxr : x ∈ rest := by
        rcases List.mem_cons.mp hx with h | h
        · subst h
          rw [hxc] at he
          cases he
        · exact h
      obtain ⟨l1, n, l2, heq, hnc, hl1, hdrop⟩ := ih hxr
      refine ⟨e :: l1, n, l2, by rw [heq, List.cons_append], hnc, ?_, ?_⟩
      · intro y hy
        rcases List.mem_cons.mp hy with h | h
        · subst h
          exact he
        · exact hl1 y h
      · simp [dropOldestNonCritical, he, hdrop]
    · have he2 : isCritical e = false := by simpa using he
      exact ⟨[], e, rest, rfl, he2, by simp, by simp [dropOldestNonCritical, he2]⟩

/-- C8: pushing into the full bounded device-plug queue keeps the queue within
capacity, preserves every critical event (non-empty `hw_db_entries`), drops
exactly the oldest non-critical event when one exists, and when every queued
event is critical the incoming event is dropped and the queue is unchanged;
`try_push` is a total function, so it never blocks. -/
theorem try_push_full_spec (q : TSQueue) (e : PlugDeviceEvent)
    (hfull : q.items.length = q.capacity) :
    ((try_push q e).items.length ≤ q.capacity)
  ∧ (∀ c ∈ q.items, isCritical c = true → c ∈ (try_push q e).items)
  ∧ ((∃ x ∈ q.items, isCritical x = false) →
      ∃ l1 n l2, q.items = l1 ++ n :: l2 ∧ isCritical n = false ∧
        (∀ y ∈ l1, isCritical y = true) ∧ (try_push q e).items = (l1 ++ l2) ++ [e])
  ∧ ((∀ x ∈ q.items, isCritical x = true) → try_push q e = q) := by
  have hnlt : ¬ q.items.length < q.capacity := by omega
  cases hdrop : dropOldestNonCritical q.items with
  | none =>
    have hq : try_push q e = q := by simp [try_push, hnlt, hdrop]
    refine ⟨?_, ?_, ?_, ?_⟩
    · rw [hq]
      exact le_of_eq hfull
    · intro c hc _
      rw [hq]
      exact hc
    · rintro ⟨x, hx, hxc⟩
      obtain ⟨l1, n, l2, _, _, _, hdrop2⟩ := dropOldestNonCritical_eq_some _ x hx hxc
      rw [hdrop] at hdrop2
      cases hdrop2
    · intro _
      exact hq
  | some rest =>
    have hex : ∃ x ∈ q.items, isCritical x = false := by
      by_contra hno
      push_neg at hno
      have hall : ∀ x ∈ q.items, isCritical x = true := by
        intro x hx
        have := hno x hx
        simpa using this
      rw [dropOldestNonCritical_eq_none _ hall] at hdrop
      cases hdrop
    obtain ⟨x, hx, hxc⟩ := hex
    obtain ⟨l1, n, l2, heq, hnc, hl1, hdrop2⟩ := dropOldestNonCritical_eq_some _ x hx hxc
    rw [hdrop] at hdrop2
    injection hdrop2 with hrest
    subst hrest
    have hitems : (try_push q e).items = (l1 ++ l2) ++ [e] := by
      simp [try_push, hnlt, hdrop]
    refine ⟨?_, ?_, ?_, ?_⟩
    · rw [hitems]
      rw [heq] at hfull
      simp only [List.length_append, List.length_cons, List.length_nil] at hfull ⊢
      omega
    · intro c hc hcc
      rw [hitems]
      rw [heq] at hc
      rcases List.mem_append.mp hc with h | h
      · exact List.mem_append_left _ (List.mem_append_left _ h)
      · rcases List.mem_cons.mp h with h | h
        · subst h
          rw [hnc] at hcc
          cases hcc
        · exact List.mem_append_left _ (List.mem_append_right _ h)
    · intro _
      exact ⟨l1, n, l2, heq, hnc, hl1, hitems⟩
    · intro hall
      exfalso
      have := hall n (by
        rw [heq]
        exact List.mem_append_right _ (List.mem_cons_self _ _))
      rw [hnc] at this
      cases this

/-- Witness for C8: a full queue of capacity 2 holding one critical and one
non-critical event receives a third event; the non-critical event is dropped
and the critical one survives. -/
theorem try_push_full_spec_witness :
    sampleQueue.items.length = sampleQueue.capacity
  ∧ (((try_push sampleQueue sampleIncomingEvent).items.length ≤ sampleQueue.capacity)
    ∧ (∀ c ∈ sampleQueue.items, isCritical c = true →
        c ∈ (try_push sampleQueue sampleIncomingEvent).items)
    ∧ ((∃ x ∈ sampleQueue.items, isCritical x = false) →
        ∃ l1 n l2, sampleQueue.items = l1 ++ n :: l2 ∧ isCritical n = false ∧
          (∀ y ∈ l1, isCritical y = true) ∧
          (try_push sampleQueue sampleIncomingEvent).items = (l1 ++ l2) ++ [sampleIncomingEvent])
    ∧ ((∀ x ∈ sampleQueue.items, isCritical x = true) →
        try_push sampleQueue sampleIncomingEvent = sampleQueue)) :=
  ⟨rfl, try_push_full_spec sampleQueue sampleIncomingEvent rfl⟩

/-- Witness for C2: the stored client is found for its own certificate and
no client is found for an unknown certificate. -/
theorem get_client_via_ssl_first_match_witness :
    get_client_via_ssl eqX509Model sampleConfig
      (eqX509Model.certFromString sampleClient.client_cert) = some sampleClient
  ∧ get_client_via_ssl eqX509Model sampleConfig
      (eqX509Model.certFromString "UNKNOWN-0") = none :=
  ⟨((get_client_via_ssl_first_match eqX509Model sampleConfig
        (eqX509Model.certFromString sampleClient.client_cert)).1 sampleClient).mpr
      ⟨[], [], rfl, by decide, by simp⟩,
   (get_client_via_ssl_first_match eqX509Model sampleConfig
        (eqX509Model.certFromString "UNKNOWN-0")).2.mpr (by decide)⟩

/-- Witness for C3: the stored app is found by its id; an unknown id fails
with `NotFound`. -/
theorem get_app_by_id_first_or_not_found_witness :
    get_app_by_id sampleConfig "1" = Except.ok sampleApp
  ∧ get_app_by_id sampleConfig "2" = Except.error (AppStoreError.notFound "2") :=
  ⟨((get_app_by_id_first_or_not_found sampleConfig "1").1 sampleApp).mpr
      ⟨[], [], rfl, rfl, by simp⟩,
   (get_app_by_id_first_or_not_found sampleConfig "2").2.mpr (by decide)⟩

/-- Witness for C4 at a concrete launch/stop/launch sequence. -/
theorem session_ids_never_reused_witness :
    ((runRegistry initRegistry [RegistryOp.launch,
        RegistryOp.event (SessionEvent.stopStream 0),
        RegistryOp.launch]).1.allocated).Pairwise (· < ·) ∧
    ((runRegistry initRegistry [RegistryOp.launch,
        RegistryOp.event (SessionEvent.stopStream 0),
        RegistryOp.launch]).1.allocated).Nodup :=
  session_ids_never_reused [RegistryOp.launch,
    RegistryOp.event (SessionEvent.stopStream 0), RegistryOp.launch]

/-- Witness for C7 at a concrete empty store. -/
theorem load_persist_load_roundtrip_witness :
    (load_or_default
        (persistConfig (load_or_default sampleStore "u1" "c1" "k1").1
          (load_or_default sampleStore "u1" "c1" "k1").2)
        "u2" "c2" "k2").1 = (load_or_default sampleStore "u1" "c1" "k1").1 :=
  load_persist_load_roundtrip sampleStore "u1" "c1" "k1" "u2" "c2" "k2"

/-- Witness for C9 at the sample session's construction arguments. -/
theorem newStreamSession_cells_empty_witness :
    (newStreamSession { width := 1920, height := 1080, refreshRate := 60 } 2 7 sampleApp
        "/etc/wolf/a" "0123456789abcdef" "fedcba9876543210" 0 "192.168.1.2" 48100
        48200).wayland_display = none ∧
    (newStreamSession { width := 1920, height := 1080, refreshRate := 60 } 2 7 sampleApp
        "/etc/wolf/a" "0123456789abcdef" "fedcba9876543210" 0 "192.168.1.2" 48100
        48200).mouse = none ∧
    (newStreamSession { width := 1920, height := 1080, refreshRate := 60 } 2 7 sampleApp
        "/etc/wolf/a" "0123456789abcdef" "fedcba9876543210" 0 "192.168.1.2" 48100
        48200).keyboard = none ∧
    (newStreamSession { width := 1920, height := 1080, refreshRate := 60 } 2 7 sampleApp
        "/etc/wolf/a" "0123456789abcdef" "fedcba9876543210" 0 "192.168.1.2" 48100
        48200).pen_tablet = none ∧
    (newStreamSession { width := 1920, height := 1080, refreshRate := 60 } 2 7 sampleApp
        "/etc/wolf/a" "0123456789abcdef" "fedcba9876543210" 0 "192.168.1.2" 48100
        48200).touch_screen = none ∧
    (newStreamSession { width := 1920, height := 1080, refreshRate := 60 } 2 7 sampleApp
        "/etc/wolf/a" "0123456789abcdef" "fedcba9876543210" 0 "192.168.1.2" 48100
        48200).joypads = [] :=
  newStreamSession_cells_empty { width := 1920, height := 1080, refreshRate := 60 } 2 7
    sampleApp "/etc/wolf/a" "0123456789abcdef" "fedcba9876543210" 0 "192.168.1.2" 48100 48200

/-- Witness for C10 at a concrete configuration and PEM string. -/
theorem get_client_via_ssl_overloads_agree_witness :
    get_client_via_ssl_pem eqX509Model sampleConfig "CERT-A" =
      get_client_via_ssl eqX509Model sampleConfig (eqX509Model.certFromString "CERT-A") :=
  get_client_via_ssl_overloads_agree eqX509Model sampleConfig "CERT-A"

end Wolf
